import Mathlib

/-!
Shallow embedding of the flood-risk evaluation and alert-dispatch pipeline
(`app/services/flood_risk.py`, `app/services/notification.py`, `app/crud.py`,
`app/routers/floods.py`, `app/schemas.py`).

Python floats are modelled as rationals (`ℚ`); the arithmetic involved is
exact on every value the claims touch.  Fallible external providers are
modelled as explicit inputs: an `Option` is `none` when the provider call
raises and `some v` when it returns payload `v`.
-/

namespace FloodForecaster

/-- `SeverityLevel` enum from `app/schemas.py`. -/
inductive SeverityLevel
  | LOW
  | MEDIUM
  | HIGH
  | CRITICAL
deriving DecidableEq, Repr

/-- `.value` of the Python `str`-backed enum. -/
def SeverityLevel.value : SeverityLevel → String
  | .LOW => "Low"
  | .MEDIUM => "Medium"
  | .HIGH => "High"
  | .CRITICAL => "Critical"

/-- Rainfall contribution of `FloodRiskService.calculate_risk_score`
(`flood_risk.py` lines 207-216). -/
def rainfall_points (rainfall_mm : ℚ) : ℚ :=
  if rainfall_mm < 5 then 10
  else if rainfall_mm < 15 then 20
  else if rainfall_mm < 30 then 35
  else if rainfall_mm < 50 then 50
  else 60

/-- Elevation contribution of `FloodRiskService.calculate_risk_score`
(`flood_risk.py` lines 220-229). -/
def elevation_points (elevation_m : ℚ) : ℚ :=
  if elevation_m < 10 then 40
  else if elevation_m < 50 then 30
  else if elevation_m < 100 then 20
  else if elevation_m < 200 then 10
  else 5

/-- Severity tier chosen from the total score
(`flood_risk.py` lines 235-242). -/
def severity_of_score (total_score : ℚ) : SeverityLevel :=
  if total_score ≤ 25 then .LOW
  else if total_score ≤ 50 then .MEDIUM
  else if total_score ≤ 75 then .HIGH
  else .CRITICAL

/-- `FloodRiskService.calculate_risk_score` (`flood_risk.py` lines 176-244):
returns the pair `(total_score, severity.value)`. -/
def calculate_risk_score (rainfall_mm elevation_m : ℚ) : ℚ × String :=
  let total_score := rainfall_points rainfall_mm + elevation_points elevation_m
  (total_score, (severity_of_score total_score).value)

/-- `FloodRiskService._get_forecast_rainfall` (`flood_risk.py` lines 79-116).
The argument is `none` when the forecast call raises (the `except` path
returns `0.0`), and `some buckets` when it returns a payload whose first
forecast entries carry the given 3-hour rain amounts (a missing `rain` key
is a `0` bucket; a missing `list` key is the empty list). -/
def get_forecast_rainfall (forecast : Option (List ℚ)) : ℚ :=
  match forecast with
  | none => 0
  | some buckets =>
    let total_rainfall := (buckets.take 4).foldl (fun acc b => acc + b) 0
    if total_rainfall > 0 then total_rainfall / 4 else 0

/-- `FloodRiskService.get_rainfall_data` (`flood_risk.py` lines 34-77).
`primary` is `none` when the current-weather call raises (the `except`
path returns `5.0`) and `some r` when it succeeds with last-hour rainfall
`r` (a missing `rain` key is `r = 0`). -/
def get_rainfall_data (primary : Option ℚ) (forecast : Option (List ℚ)) : ℚ :=
  match primary with
  | none => 5
  | some rainfall =>
    if rainfall = 0 then get_forecast_rainfall forecast else rainfall

/-- `FloodRiskService._mock_elevation` (`flood_risk.py` lines 158-174).
`pyhash` models the process-level Python string hash applied to the
formatted coordinate pair; Python's `%` on a positive modulus and Lean's
`Int.emod` agree (both land in `[0, 99]`). -/
def mock_elevation (pyhash : ℚ → ℚ → ℤ) (latitude longitude : ℚ) : ℚ :=
  let base_elevation := |latitude| * 10
  let variation : ℤ := pyhash latitude longitude % 100 - 50
  max 0 (base_elevation + (variation : ℚ))

/-- `models.AlertSubscription` (`app/models.py` lines 84-109): the fields the
matcher and dispatcher read.  `is_active` models the integer flag
(`1` = active ↦ `true`). -/
structure AlertSubscription where
  email : Option String
  phone : Option String
  latitude : ℚ
  longitude : ℚ
  radius_km : ℚ
  min_severity : String
  is_active : Bool
deriving DecidableEq, Repr

/-- The `severity_order` dict lookup with default `0`
(`app/crud.py` lines 260-262 and 276): `dict.get(s, 0)`. -/
def severity_order (s : String) : Nat :=
  if s = "Low" then 0
  else if s = "Medium" then 1
  else if s = "High" then 2
  else if s = "Critical" then 3
  else 0

/-- The radius test of `get_subscriptions_near_location`
(`app/crud.py` lines 271-278): `sqrt(lat_diff² + lon_diff²) * 111 ≤ radius_km`,
stated equivalently over `ℚ` with both sides squared (the equivalence with
the real square root form is proved in `withinRadius_iff_sqrt` below). -/
def withinRadius (latitude longitude : ℚ) (sub : AlertSubscription) : Bool :=
  decide ((|sub.latitude - latitude| ^ 2 + |sub.longitude - longitude| ^ 2) * 111 ^ 2
      ≤ sub.radius_km ^ 2
    ∧ 0 ≤ sub.radius_km)

/-- `get_subscriptions_near_location` (`app/crud.py` lines 242-281): the
database query keeps active subscriptions, then the loop keeps those within
radius whose severity threshold does not exceed the event severity. -/
def get_subscriptions_near_location (latitude longitude : ℚ)
    (min_severity : String) (subscriptions : List AlertSubscription) :
    List AlertSubscription :=
  let active := subscriptions.filter (fun sub => sub.is_active)
  active.filter (fun sub =>
    withinRadius latitude longitude sub
      && decide (severity_order sub.min_severity ≤ severity_order min_severity))

/-- The per-alert counters of `NotificationService.send_flood_alert`
(`notification.py` lines 192-197). -/
structure NotificationResults where
  sms_sent : Nat
  sms_failed : Nat
  emails_sent : Nat
  emails_failed : Nat
deriving DecidableEq, Repr

/-- One iteration of the send loops of `send_flood_alert`
(`notification.py` lines 200-215): on success increment the sent counter,
otherwise the failed counter. -/
def sendStep (ok : String → Bool) (acc : Nat × Nat) (recipient : String) :
    Nat × Nat :=
  if ok recipient then (acc.1 + 1, acc.2) else (acc.1, acc.2 + 1)

/-- A whole send loop of `send_flood_alert` over one channel:
`(sent, failed)` counters starting from `(0, 0)`. -/
def runChannel (ok : String → Bool) (recipients : List String) : Nat × Nat :=
  recipients.foldl (sendStep ok) (0, 0)

/-- `NotificationService.send_flood_alert` (`notification.py` lines 111-217).
`smsOk r` (resp. `emailOk r`) models the outcome of the single provider
attempt for recipient `r`: `send_sms`/`send_email` catch every exception and
return a boolean, so each attempt is a total boolean outcome.  A `none`
recipient list models Python `None`; `if phone_numbers:` also skips an empty
list, which the fold reproduces. -/
def send_flood_alert (smsOk emailOk : String → Bool)
    (phone_numbers emails : Option (List String)) : NotificationResults :=
  let phones := match phone_numbers with | none => [] | some l => l
  let ems := match emails with | none => [] | some l => l
  let sms := runChannel smsOk phones
  let em := runChannel emailOk ems
  { sms_sent := sms.1
    sms_failed := sms.2
    emails_sent := em.1
    emails_failed := em.2 }

/-- `schemas.FloodEventCreate` (`app/schemas.py` lines 22-37). -/
structure FloodEventCreate where
  location_name : String
  latitude : ℚ
  longitude : ℚ
  description : Option String
  rainfall_mm : Option ℚ
  elevation_m : Option ℚ
deriving DecidableEq, Repr

/-- The pydantic `Field` constraints on `FloodEventCreate`: latitude and
longitude ranges, and `ge=0` on `rainfall_mm` only — `elevation_m` carries
no bound (`app/schemas.py` lines 25-26 and 36-37). -/
def FloodEventCreate.valid (f : FloodEventCreate) : Prop :=
  -90 ≤ f.latitude ∧ f.latitude ≤ 90
    ∧ -180 ≤ f.longitude ∧ f.longitude ≤ 180
    ∧ (∀ r : ℚ, f.rainfall_mm = some r → 0 ≤ r)

/-- The `factors` dict built by `calculate_flood_risk`
(`flood_risk.py` lines 277-283). -/
structure RiskFactors where
  rainfall_contribution : String
  elevation_contribution : String
  explanation : String
deriving DecidableEq, Repr

/-- The dict returned by `calculate_flood_risk`
(`flood_risk.py` lines 272-284). -/
structure RiskResult where
  rainfall_mm : ℚ
  elevation_m : ℚ
  risk_score : ℚ
  severity : String
  factors : RiskFactors
deriving DecidableEq, Repr

/-- `FloodRiskService.calculate_flood_risk` (`flood_risk.py` lines 246-284).
`fetched_rainfall` / `fetched_elevation` are the values the provider
resolvers would return; an override, when present, is used verbatim. -/
def calculate_flood_risk (fetched_rainfall fetched_elevation : ℚ)
    (rainfall_override elevation_override : Option ℚ) : RiskResult :=
  let rainfall := match rainfall_override with
    | some r => r
    | none => fetched_rainfall
  let elevation := match elevation_override with
    | some e => e
    | none => fetched_elevation
  let rs := calculate_risk_score rainfall elevation
  { rainfall_mm := rainfall
    elevation_m := elevation
    risk_score := rs.1
    severity := rs.2
    factors :=
      { rainfall_contribution :=
          if rainfall > 30 then "High"
          else if rainfall > 15 then "Medium" else "Low"
        elevation_contribution :=
          if elevation < 50 then "High risk"
          else if elevation < 100 then "Medium risk" else "Low risk"
        explanation :=
          "Risk is "
            ++ (if rs.1 > 50 then "elevated"
                else if rs.1 > 25 then "moderate" else "low")
            ++ " due to "
            ++ (if rainfall > 30 then "heavy"
                else if rainfall > 15 then "moderate" else "light")
            ++ " rainfall and "
            ++ (if elevation < 50 then "low"
                else if elevation < 100 then "moderate" else "high")
            ++ " elevation." } }

/-- The list comprehensions of `create_flood_event`
(`app/routers/floods.py` lines 157-158): collect one channel's addresses,
dropping Python-falsy values (`None` and the empty string). -/
def collectChannel (get : AlertSubscription → Option String)
    (subscriptions : List AlertSubscription) : List String :=
  subscriptions.filterMap (fun sub =>
    match get sub with
    | none => none
    | some s => if s = "" then none else some s)

/-- Observable outcome of one `POST /floods/` request
(`app/routers/floods.py` lines 83-171): the stored assessment fields,
whether the matching query ran (`matched = some _`), and whether
`send_flood_alert` was invoked (`dispatch = some _`). -/
structure PipelineResult where
  risk_score : ℚ
  severity : String
  rainfall_mm : ℚ
  elevation_m : ℚ
  matched : Option (List AlertSubscription)
  dispatch : Option NotificationResults
deriving DecidableEq, Repr

/-- `create_flood_event` (`app/routers/floods.py` lines 83-171): score the
event, then — only when the severity is High or Critical — fetch matching
subscriptions and, only when that list is non-empty, call
`send_flood_alert`.  The assessment fields are produced in every branch. -/
def create_flood_event (req : FloodEventCreate)
    (fetched_rainfall fetched_elevation : ℚ)
    (subscriptions : List AlertSubscription)
    (smsOk emailOk : String → Bool) : PipelineResult :=
  let risk_data := calculate_flood_risk fetched_rainfall fetched_elevation
    req.rainfall_mm req.elevation_m
  if risk_data.severity = "High" ∨ risk_data.severity = "Critical" then
    let matched := get_subscriptions_near_location req.latitude req.longitude
      risk_data.severity subscriptions
    if matched.isEmpty then
      { risk_score := risk_data.risk_score
        severity := risk_data.severity
        rainfall_mm := risk_data.rainfall_mm
        elevation_m := risk_data.elevation_m
        matched := some matched
        dispatch := none }
    else
      let emails := collectChannel (fun sub => sub.email) matched
      let phones := collectChannel (fun sub => sub.phone) matched
      { risk_score := risk_data.risk_score
        severity := risk_data.severity
        rainfall_mm := risk_data.rainfall_mm
        elevation_m := risk_data.elevation_m
        matched := some matched
        dispatch := some (send_flood_alert smsOk emailOk
          (if phones.isEmpty then none else some phones)
          (if emails.isEmpty then none else some emails)) }
  else
    { risk_score := risk_data.risk_score
      severity := risk_data.severity
      rainfall_mm := risk_data.rainfall_mm
      elevation_m := risk_data.elevation_m
      matched := none
      dispatch := none }

/-- Concrete subscription with a non-canonical `min_severity` string, used by
a witness below. -/
def subUnknown : AlertSubscription :=
  { email := none, phone := none, latitude := 0, longitude := 0,
    radius_km := 5, min_severity := "high", is_active := true }

/-- Concrete request whose overrides force a Critical assessment, used by a
counterexample below. -/
def reqCritical : FloodEventCreate :=
  { location_name := "x", latitude := 0, longitude := 0, description := none,
    rainfall_mm := some 35, elevation_m := some 15 }

/-- Concrete request carrying a negative elevation override, used below. -/
def reqNegativeElevation : FloodEventCreate :=
  { location_name := "x", latitude := 0, longitude := 0, description := none,
    rainfall_mm := none, elevation_m := some (-5) }

/-! ### Helper lemmas -/

lemma sqrt_mul_111_le_iff (d r : ℝ) :
    Real.sqrt d * 111 ≤ r ↔ 0 ≤ r ∧ d * 111 ^ 2 ≤ r ^ 2 := by
  have h : Real.sqrt d * 111 ≤ r ↔ Real.sqrt d ≤ r / 111 := by
    constructor <;> intro h <;> linarith
  rw [h, Real.sqrt_le_iff]
  constructor
  · rintro ⟨h1, h2⟩
    exact ⟨by linarith, by nlinarith⟩
  · rintro ⟨h1, h2⟩
    exact ⟨by linarith, by nlinarith⟩

lemma withinRadius_iff_sqrt (latitude longitude : ℚ) (sub : AlertSubscription) :
    withinRadius latitude longitude sub = true ↔
      Real.sqrt (((sub.latitude : ℝ) - (latitude : ℝ)) ^ 2
          + ((sub.longitude : ℝ) - (longitude : ℝ)) ^ 2) * 111
        ≤ (sub.radius_km : ℝ) := by
  rw [sqrt_mul_111_le_iff]
  unfold withinRadius
  simp only [decide_eq_true_eq]
  constructor
  · rintro ⟨hle, hr⟩
    refine ⟨by exact_mod_cast hr, ?_⟩
    have hcast : ((|(sub.latitude : ℝ) - (latitude : ℝ)| ^ 2
        + |(sub.longitude : ℝ) - (longitude : ℝ)| ^ 2) * 111 ^ 2 : ℝ)
        ≤ ((sub.radius_km : ℝ)) ^ 2 := by exact_mod_cast hle
    simpa [sq_abs] using hcast
  · rintro ⟨hr, hle⟩
    constructor
    · have hcast : ((|(sub.latitude : ℝ) - (latitude : ℝ)| ^ 2
          + |(sub.longitude : ℝ) - (longitude : ℝ)| ^ 2) * 111 ^ 2 : ℝ)
          ≤ ((sub.radius_km : ℝ)) ^ 2 := by simpa [sq_abs] using hle
      exact_mod_cast hcast
    · exact_mod_cast hr

lemma mem_get_subscriptions_iff (latitude longitude : ℚ) (min_severity : String)
    (subscriptions : List AlertSubscription) (sub : AlertSubscription) :
    sub ∈ get_subscriptions_near_location latitude longitude min_severity
        subscriptions
      ↔ sub ∈ subscriptions ∧ sub.is_active = true
        ∧ withinRadius latitude longitude sub = true
        ∧ severity_order sub.min_severity ≤ severity_order min_severity := by
  unfold get_subscriptions_near_location
  simp only [List.mem_filter, Bool.and_eq_true, decide_eq_true_eq]
  tauto

lemma foldl_sendStep (ok : String → Bool) (recipients : List String) :
    ∀ a b : Nat,
      recipients.foldl (sendStep ok) (a, b)
        = (a + (recipients.filter ok).length,
           b + (recipients.filter (fun r => !ok r)).length) := by
  induction recipients with
  | nil => intro a b; simp
  | cons hd tl ih =>
    intro a b
    by_cases h : ok hd
    · rw [List.foldl_cons, show sendStep ok (a, b) hd = (a + 1, b) by
        simp [sendStep, h], ih (a + 1) b]
      simp [List.filter_cons, h, Prod.ext_iff]
      omega
    · rw [List.foldl_cons, show sendStep ok (a, b) hd = (a, b + 1) by
        simp [sendStep, h], ih a (b + 1)]
      simp [List.filter_cons, h, Prod.ext_iff]
      omega

lemma runChannel_eq (ok : String → Bool) (recipients : List String) :
    runChannel ok recipients
      = ((recipients.filter ok).length,
         (recipients.filter (fun r => !ok r)).length) := by
  unfold runChannel
  rw [foldl_sendStep]
  simp

lemma length_filter_split (p : String → Bool) (l : List String) :
    (l.filter p).length + (l.filter (fun a => !p a)).length = l.length := by
  induction l with
  | nil => rfl
  | cons hd tl ih =>
    by_cases h : p hd <;> simp [List.filter_cons, h] <;> omega

lemma rainfall_points_mono {r1 r2 : ℚ} (h : r1 ≤ r2) :
    rainfall_points r1 ≤ rainfall_points r2 := by
  unfold rainfall_points
  split_ifs <;> linarith

lemma elevation_points_anti {e1 e2 : ℚ} (h : e1 ≤ e2) :
    elevation_points e2 ≤ elevation_points e1 := by
  unfold elevation_points
  split_ifs <;> linarith

lemma rainfall_points_cases (r : ℚ) :
    rainfall_points r = 10 ∨ rainfall_points r = 20 ∨ rainfall_points r = 35
      ∨ rainfall_points r = 50 ∨ rainfall_points r = 60 := by
  unfold rainfall_points
  split_ifs <;> simp

lemma elevation_points_cases (e : ℚ) :
    elevation_points e = 40 ∨ elevation_points e = 30 ∨ elevation_points e = 20
      ∨ elevation_points e = 10 ∨ elevation_points e = 5 := by
  unfold elevation_points
  split_ifs <;> simp

/-! ### Claim theorems -/

/-- Claim C1: for every non-negative rainfall and elevation,
`calculate_risk_score` assigns rainfall points by the lower-inclusive bins
`[0,5)→10, [5,15)→20, [15,30)→35, [30,50)→50, [50,∞)→60`, elevation points
by `[0,10)→40, [10,50)→30, [50,100)→20, [100,200)→10, [200,∞)→5`, returns
their sum as the total, and maps the total to severity as
`≤25→Low, ≤50→Medium, ≤75→High, else Critical`; in particular rainfall 5
gives 20 points and elevation 10 gives 30 points. -/
theorem risk_score_bins_and_severity (r e : ℚ) (hr : 0 ≤ r) (he : 0 ≤ e) :
    rainfall_points 5 = 20 ∧ elevation_points 10 = 30
    ∧ (r < 5 → rainfall_points r = 10)
    ∧ (5 ≤ r → r < 15 → rainfall_points r = 20)
    ∧ (15 ≤ r → r < 30 → rainfall_points r = 35)
    ∧ (30 ≤ r → r < 50 → rainfall_points r = 50)
    ∧ (50 ≤ r → rainfall_points r = 60)
    ∧ (e < 10 → elevation_points e = 40)
    ∧ (10 ≤ e → e < 50 → elevation_points e = 30)
    ∧ (50 ≤ e → e < 100 → elevation_points e = 20)
    ∧ (100 ≤ e → e < 200 → elevation_points e = 10)
    ∧ (200 ≤ e → elevation_points e = 5)
    ∧ (calculate_risk_score r e).1 = rainfall_points r + elevation_points e
    ∧ ((calculate_risk_score r e).1 ≤ 25 → (calculate_risk_score r e).2 = "Low")
    ∧ (25 < (calculate_risk_score r e).1 → (calculate_risk_score r e).1 ≤ 50 →
        (calculate_risk_score r e).2 = "Medium")
    ∧ (50 < (calculate_risk_score r e).1 → (calculate_risk_score r e).1 ≤ 75 →
        (calculate_risk_score r e).2 = "High")
    ∧ (75 < (calculate_risk_score r e).1 →
        (calculate_risk_score r e).2 = "Critical") := by
  have hfst : (calculate_risk_score r e).1
      = rainfall_points r + elevation_points e := rfl
  have hsnd : (calculate_risk_score r e).2
      = (severity_of_score (rainfall_points r + elevation_points e)).value := rfl
  refine ⟨by norm_num [rainfall_points], by norm_num [elevation_points],
    ?_, ?_, ?_, ?_, ?_, ?_, ?_, ?_, ?_, ?_, hfst, ?_, ?_, ?_, ?_⟩
  · intro h1
    unfold rainfall_points
    rw [if_pos h1]
  · intro h1 h2
    unfold rainfall_points
    rw [if_neg (by linarith), if_pos h2]
  · intro h1 h2
    unfold rainfall_points
    rw [if_neg (by linarith), if_neg (by linarith), if_pos h2]
  · intro h1 h2
    unfold rainfall_points
    rw [if_neg (by linarith), if_neg (by linarith), if_neg (by linarith),
      if_pos h2]
  · intro h1
    unfold rainfall_points
    rw [if_neg (by linarith), if_neg (by linarith), if_neg (by linarith),
      if_neg (by linarith)]
  · intro h1
    unfold elevation_points
    rw [if_pos h1]
  · intro h1 h2
    unfold elevation_points
    rw [if_neg (by linarith), if_pos h2]
  · intro h1 h2
    unfold elevation_points
    rw [if_neg (by linarith), if_neg (by linarith), if_pos h2]
  · intro h1 h2
    unfold elevation_points
    rw [if_neg (by linarith), if_neg (by linarith), if_neg (by linarith),
      if_pos h2]
  · intro h1
    unfold elevation_points
    rw [if_neg (by linarith), if_neg (by linarith), if_neg (by linarith),
      if_neg (by linarith)]
  · intro h1
    rw [hfst] at h1
    rw [hsnd]
    unfold severity_of_score
    rw [if_pos h1]
    rfl
  · intro h1 h2
    rw [hfst] at h1 h2
    rw [hsnd]
    unfold severity_of_score
    rw [if_neg (by linarith), if_pos h2]
    rfl
  · intro h1 h2
    rw [hfst] at h1 h2
    rw [hsnd]
    unfold severity_of_score
    rw [if_neg (by linarith), if_neg (by linarith), if_pos h2]
    rfl
  · intro h1
    rw [hfst] at h1
    rw [hsnd]
    unfold severity_of_score
    rw [if_neg (by linarith), if_neg (by linarith), if_neg (by linarith)]
    rfl

/-- Witness for C1: the theorem applied at rainfall 5, elevation 10. -/
theorem risk_score_bins_and_severity_witness :
    0 ≤ (5 : ℚ) ∧ 0 ≤ (10 : ℚ)
    ∧ rainfall_points 5 = 20 ∧ elevation_points 10 = 30 :=
  ⟨by norm_num, by norm_num,
    (risk_score_bins_and_severity 5 10 (by norm_num) (by norm_num)).1,
    (risk_score_bins_and_severity 5 10 (by norm_num) (by norm_num)).2.1⟩

/-- Claim C7: with elevation fixed the total score is non-decreasing in
rainfall, and with rainfall fixed it is non-increasing in elevation. -/
theorem risk_score_monotone (r r' e e' : ℚ) (hr : 0 ≤ r) (he : 0 ≤ e)
    (hrr : r ≤ r') (hee : e ≤ e') :
    (calculate_risk_score r e).1 ≤ (calculate_risk_score r' e).1
    ∧ (calculate_risk_score r e').1 ≤ (calculate_risk_score r e).1 := by
  constructor
  · show rainfall_points r + elevation_points e
      ≤ rainfall_points r' + elevation_points e
    have := rainfall_points_mono hrr
    linarith
  · show rainfall_points r + elevation_points e'
      ≤ rainfall_points r + elevation_points e
    have := elevation_points_anti hee
    linarith

/-- Witness for C7: the theorem applied at rainfall 0 ≤ 40 and
elevation 0 ≤ 120. -/
theorem risk_score_monotone_witness :
    0 ≤ (0 : ℚ) ∧ (0 : ℚ) ≤ 40 ∧ (0 : ℚ) ≤ 120
    ∧ (calculate_risk_score 0 0).1 ≤ (calculate_risk_score 40 0).1
    ∧ (calculate_risk_score 0 120).1 ≤ (calculate_risk_score 0 0).1 :=
  ⟨by norm_num, by norm_num, by norm_num,
    (risk_score_monotone 0 40 0 120 (by norm_num) (by norm_num)
      (by norm_num) (by norm_num)).1,
    (risk_score_monotone 0 40 0 120 (by norm_num) (by norm_num)
      (by norm_num) (by norm_num)).2⟩

/-- Claim C9: for non-negative inputs the total score lies in `[15, 100]`
(in particular it is never `26` or `76`), because it is a sum of one value
from `{10, 20, 35, 50, 60}` and one from `{5, 10, 20, 30, 40}`. -/
theorem total_score_range (r e : ℚ) (hr : 0 ≤ r) (he : 0 ≤ e) :
    15 ≤ (calculate_risk_score r e).1 ∧ (calculate_risk_score r e).1 ≤ 100
    ∧ (calculate_risk_score r e).1 ≠ 26 ∧ (calculate_risk_score r e).1 ≠ 76
    ∧ (rainfall_points r = 10 ∨ rainfall_points r = 20 ∨ rainfall_points r = 35
        ∨ rainfall_points r = 50 ∨ rainfall_points r = 60)
    ∧ (elevation_points e = 40 ∨ elevation_points e = 30
        ∨ elevation_points e = 20 ∨ elevation_points e = 10
        ∨ elevation_points e = 5) := by
  have h1 := rainfall_points_cases r
  have h2 := elevation_points_cases e
  have hc : (calculate_risk_score r e).1
      = rainfall_points r + elevation_points e := rfl
  refine ⟨?_, ?_, ?_, ?_, h1, h2⟩ <;> rw [hc] <;>
    rcases h1 with h | h | h | h | h <;> rcases h2 with g | g | g | g | g <;>
    rw [h, g] <;> norm_num

/-- Witness for C9: the theorem applied at rainfall 0, elevation 0. -/
theorem total_score_range_witness :
    0 ≤ (0 : ℚ)
    ∧ 15 ≤ (calculate_risk_score 0 0).1 ∧ (calculate_risk_score 0 0).1 ≤ 100
    ∧ (calculate_risk_score 0 0).1 ≠ 26 ∧ (calculate_risk_score 0 0).1 ≠ 76 :=
  ⟨by norm_num,
    (total_score_range 0 0 (by norm_num) (by norm_num)).1,
    (total_score_range 0 0 (by norm_num) (by norm_num)).2.1,
    (total_score_range 0 0 (by norm_num) (by norm_num)).2.2.1,
    (total_score_range 0 0 (by norm_num) (by norm_num)).2.2.2.1⟩

/-- Claim C2 counterexample: when the primary current-conditions value is
zero and the forecast call fails, `get_rainfall_data` returns `0`, not the
claimed fixed default `5.0` — so the resolver does return `0` on a failure
path. -/
theorem rainfall_zero_on_forecast_failure :
    get_rainfall_data (some 0) none = 0 ∧ (0 : ℚ) ≠ 5 := by
  constructor
  · rfl
  · norm_num

/-- Claim C2 as amended: with no override, a failing primary call returns
the fixed default `5.0` directly (the forecast is not consulted); a primary
value of zero falls back to the forecast, which averages the first 4
three-hour buckets when their sum is positive; a failing or rain-free
forecast yields `0`, which is what the resolver then returns. -/
theorem rainfall_fallback_chain (forecast : Option (List ℚ)) :
    get_rainfall_data none forecast = 5
    ∧ (∀ r : ℚ, r ≠ 0 → get_rainfall_data (some r) forecast = r)
    ∧ get_rainfall_data (some 0) forecast = get_forecast_rainfall forecast
    ∧ get_forecast_rainfall none = 0
    ∧ (∀ buckets : List ℚ, get_forecast_rainfall (some buckets)
        = if 0 < (buckets.take 4).sum then (buckets.take 4).sum / 4 else 0) := by
  refine ⟨rfl, ?_, ?_, rfl, ?_⟩
  · intro r hrne
    show (if r = 0 then get_forecast_rainfall forecast else r) = r
    rw [if_neg hrne]
  · show (if (0 : ℚ) = 0 then get_forecast_rainfall forecast else 0)
      = get_forecast_rainfall forecast
    rw [if_pos rfl]
  · intro buckets
    have hsum : (buckets.take 4).foldl (fun acc b => acc + b) 0
        = (buckets.take 4).sum := List.sum_eq_foldl.symm
    show (if (buckets.take 4).foldl (fun acc b => acc + b) 0 > 0
        then (buckets.take 4).foldl (fun acc b => acc + b) 0 / 4 else 0)
      = if 0 < (buckets.take 4).sum then (buckets.take 4).sum / 4 else 0
    rw [hsum]

/-- Witness for the amended C2: a non-zero primary value is used verbatim. -/
theorem rainfall_fallback_chain_witness :
    (7 : ℚ) ≠ 0 ∧ get_rainfall_data (some 7) none = 7 :=
  ⟨by norm_num, (rainfall_fallback_chain none).2.1 7 (by norm_num)⟩

/-- Claim C3: the matcher keeps exactly the input subscriptions that are
active, lie within their own radius of the event under the planar
`sqrt(Δlat² + Δlon²) * 111` approximation, and whose severity threshold
does not exceed the event severity under `Low < Medium < High < Critical`;
the result is a subset of the input and inactive subscriptions are always
excluded. -/
theorem subscriber_match_characterization (latitude longitude : ℚ)
    (event_severity : String) (subscriptions : List AlertSubscription)
    (sub : AlertSubscription) :
    sub ∈ get_subscriptions_near_location latitude longitude event_severity
        subscriptions
      ↔ sub ∈ subscriptions
        ∧ sub.is_active = true
        ∧ Real.sqrt (((sub.latitude : ℝ) - (latitude : ℝ)) ^ 2
            + ((sub.longitude : ℝ) - (longitude : ℝ)) ^ 2) * 111
          ≤ (sub.radius_km : ℝ)
        ∧ severity_order sub.min_severity ≤ severity_order event_severity := by
  rw [mem_get_subscriptions_iff, withinRadius_iff_sqrt]

/-- Claim C10: a subscription whose `min_severity` is none of the four
canonical strings is ranked `0` — the same as `Low` — and therefore matches
any event severity whenever it is active and within radius. -/
theorem unknown_min_severity_matches (latitude longitude : ℚ)
    (event_severity : String) (subscriptions : List AlertSubscription)
    (sub : AlertSubscription)
    (h1 : sub.min_severity ≠ "Low") (h2 : sub.min_severity ≠ "Medium")
    (h3 : sub.min_severity ≠ "High") (h4 : sub.min_severity ≠ "Critical")
    (hmem : sub ∈ subscriptions) (hact : sub.is_active = true)
    (hrad : Real.sqrt (((sub.latitude : ℝ) - (latitude : ℝ)) ^ 2
        + ((sub.longitude : ℝ) - (longitude : ℝ)) ^ 2) * 111
      ≤ (sub.radius_km : ℝ)) :
    severity_order sub.min_severity = 0
    ∧ sub ∈ get_subscriptions_near_location latitude longitude event_severity
        subscriptions := by
  have h0 : severity_order sub.min_severity = 0 := by
    unfold severity_order
    rw [if_neg h1, if_neg h2, if_neg h3, if_neg h4]
  refine ⟨h0, ?_⟩
  rw [mem_get_subscriptions_iff]
  exact ⟨hmem, hact, (withinRadius_iff_sqrt latitude longitude sub).2 hrad,
    by rw [h0]; exact Nat.zero_le _⟩

/-- Witness for C10: an active subscription at the event location with the
lowercase threshold string is matched even by a `Low` event. -/
theorem unknown_min_severity_matches_witness :
    subUnknown.min_severity = "high" ∧ subUnknown.is_active = true
    ∧ severity_order subUnknown.min_severity = 0
    ∧ subUnknown ∈ get_subscriptions_near_location 0 0 "Low" [subUnknown] := by
  have hrad : Real.sqrt (((subUnknown.latitude : ℝ) - ((0 : ℚ) : ℝ)) ^ 2
      + ((subUnknown.longitude : ℝ) - ((0 : ℚ) : ℝ)) ^ 2) * 111
      ≤ (subUnknown.radius_km : ℝ) := by
    norm_num [subUnknown, Real.sqrt_zero]
  have h := unknown_min_severity_matches 0 0 "Low" [subUnknown] subUnknown
    (by decide) (by decide) (by decide) (by decide)
    (List.mem_singleton.mpr rfl) rfl hrad
  exact ⟨rfl, rfl, h.1, h.2⟩

/-- Claim C4: every attempted send is counted exactly once per channel
(`sent + failed` equals the number of recipients attempted), each counter is
fully determined by the per-recipient outcomes of its own channel alone —
so one recipient's or one channel's failure never changes any other count —
dispatch is a total function (per-recipient failures are boolean outcomes of
`send_sms`/`send_email`, never exceptions), and dispatch over zero
recipients returns the all-zero outcome with no provider attempt. -/
theorem dispatch_accounting (smsOk emailOk : String → Bool)
    (phone_numbers emails : Option (List String)) :
    (send_flood_alert smsOk emailOk phone_numbers emails).sms_sent
        + (send_flood_alert smsOk emailOk phone_numbers emails).sms_failed
      = (phone_numbers.getD []).length
    ∧ (send_flood_alert smsOk emailOk phone_numbers emails).emails_sent
        + (send_flood_alert smsOk emailOk phone_numbers emails).emails_failed
      = (emails.getD []).length
    ∧ (send_flood_alert smsOk emailOk phone_numbers emails).sms_sent
      = ((phone_numbers.getD []).filter smsOk).length
    ∧ (send_flood_alert smsOk emailOk phone_numbers emails).sms_failed
      = ((phone_numbers.getD []).filter (fun r => !smsOk r)).length
    ∧ (send_flood_alert smsOk emailOk phone_numbers emails).emails_sent
      = ((emails.getD []).filter emailOk).length
    ∧ (send_flood_alert smsOk emailOk phone_numbers emails).emails_failed
      = ((emails.getD []).filter (fun r => !emailOk r)).length
    ∧ (∀ emails2 : Option (List String),
        (send_flood_alert smsOk emailOk phone_numbers emails2).sms_sent
          = (send_flood_alert smsOk emailOk phone_numbers emails).sms_sent
        ∧ (send_flood_alert smsOk emailOk phone_numbers emails2).sms_failed
          = (send_flood_alert smsOk emailOk phone_numbers emails).sms_failed)
    ∧ (∀ phones2 : Option (List String),
        (send_flood_alert smsOk emailOk phones2 emails).emails_sent
          = (send_flood_alert smsOk emailOk phone_numbers emails).emails_sent
        ∧ (send_flood_alert smsOk emailOk phones2 emails).emails_failed
          = (send_flood_alert smsOk emailOk phone_numbers emails).emails_failed)
    ∧ send_flood_alert smsOk emailOk none none
      = { sms_sent := 0, sms_failed := 0, emails_sent := 0,
          emails_failed := 0 } := by
  have hs : ∀ (p e : Option (List String)),
      send_flood_alert smsOk emailOk p e
        = { sms_sent := ((p.getD []).filter smsOk).length
            sms_failed := ((p.getD []).filter (fun r => !smsOk r)).length
            emails_sent := ((e.getD []).filter emailOk).length
            emails_failed := ((e.getD []).filter (fun r => !emailOk r)).length } := by
    intro p e
    cases p <;> cases e <;>
      simp [send_flood_alert, runChannel_eq, Option.getD]
  simp [hs, length_filter_split]

/-- Claim C6 is a code bug: the mock elevation's offset comes from Python's
per-process randomized string hash, so equal inputs evaluated under two
different hash seeds can yield different elevations — the function is not
determined by `(latitude, longitude)` alone.  Two admissible process hashes
(values 0 and 1 for the same coordinate string) give elevations 50 and 51
at `(10, 20)`. -/
theorem mock_elevation_depends_on_hash_seed :
    mock_elevation (fun _ _ => 0) 10 20 = 50
    ∧ mock_elevation (fun _ _ => 1) 10 20 = 51
    ∧ mock_elevation (fun _ _ => 0) 10 20
      ≠ mock_elevation (fun _ _ => 1) 10 20 := by
  refine ⟨?_, ?_, ?_⟩ <;> norm_num [mock_elevation]

/-- Claim C8 is a code bug: `FloodEventCreate` validates `rainfall_mm ≥ 0`
but puts no bound on `elevation_m`, so a schema-valid request carrying
`elevation_m = -5` passes the negative elevation verbatim through
`calculate_flood_risk` into the scorer and the result. -/
theorem negative_elevation_override_flows_to_scorer :
    reqNegativeElevation.valid
    ∧ (calculate_flood_risk 5 100 reqNegativeElevation.rainfall_mm
        reqNegativeElevation.elevation_m).elevation_m = -5
    ∧ ¬ (0 : ℚ) ≤ (calculate_flood_risk 5 100 reqNegativeElevation.rainfall_mm
        reqNegativeElevation.elevation_m).elevation_m := by
  have hev : (calculate_flood_risk 5 100 reqNegativeElevation.rainfall_mm
      reqNegativeElevation.elevation_m).elevation_m = -5 := rfl
  refine ⟨?_, hev, ?_⟩
  · refine ⟨by norm_num [reqNegativeElevation], by norm_num [reqNegativeElevation],
      by norm_num [reqNegativeElevation], by norm_num [reqNegativeElevation], ?_⟩
    intro r hsome
    simp [reqNegativeElevation] at hsome
  · rw [hev]
    norm_num

/-- Claim C5 counterexample: severity Critical with no matching
subscription — the severity is High-or-Critical yet `send_flood_alert` is
not invoked (`dispatch = none`), so dispatch does not run "if and only if"
the severity is High or Critical. -/
theorem dispatch_skipped_at_high_severity :
    (create_flood_event reqCritical 0 0 [] (fun _ => true)
        (fun _ => true)).severity = "Critical"
    ∧ (create_flood_event reqCritical 0 0 [] (fun _ => true)
        (fun _ => true)).dispatch = none := by
  have hsev : (calculate_flood_risk 0 0 reqCritical.rainfall_mm
      reqCritical.elevation_m).severity = "Critical" := by
    show (severity_of_score (rainfall_points 35 + elevation_points 15)).value
      = "Critical"
    norm_num [rainfall_points, elevation_points, severity_of_score,
      SeverityLevel.value]
  have hempty : (get_subscriptions_near_location reqCritical.latitude
      reqCritical.longitude (calculate_flood_risk 0 0 reqCritical.rainfall_mm
        reqCritical.elevation_m).severity []).isEmpty = true := rfl
  constructor
  · simp only [create_flood_event]
    rw [if_pos (Or.inr hsev), if_pos hempty]
    exact hsev
  · simp only [create_flood_event]
    rw [if_pos (Or.inr hsev), if_pos hempty]

/-- Claim C5 as amended: subscriber matching runs if and only if the
computed severity is High or Critical; alert dispatch runs if and only if
the severity is High or Critical and the matching query returned at least
one subscription; no alert is ever sent for Low or Medium severity, and the
assessment fields are returned in every case. -/
theorem pipeline_gating (req : FloodEventCreate)
    (fetched_rainfall fetched_elevation : ℚ)
    (subscriptions : List AlertSubscription) (smsOk emailOk : String → Bool) :
    ((create_flood_event req fetched_rainfall fetched_elevation subscriptions
          smsOk emailOk).matched.isSome = true
      ↔ ((create_flood_event req fetched_rainfall fetched_elevation
            subscriptions smsOk emailOk).severity = "High"
        ∨ (create_flood_event req fetched_rainfall fetched_elevation
            subscriptions smsOk emailOk).severity = "Critical"))
    ∧ ((create_flood_event req fetched_rainfall fetched_elevation subscriptions
          smsOk emailOk).dispatch.isSome = true
      ↔ (((create_flood_event req fetched_rainfall fetched_elevation
            subscriptions smsOk emailOk).severity = "High"
          ∨ (create_flood_event req fetched_rainfall fetched_elevation
              subscriptions smsOk emailOk).severity = "Critical")
        ∧ (get_subscriptions_near_location req.latitude req.longitude
            (create_flood_event req fetched_rainfall fetched_elevation
              subscriptions smsOk emailOk).severity
            subscriptions).isEmpty = false))
    ∧ (create_flood_event req fetched_rainfall fetched_elevation subscriptions
        smsOk emailOk).severity
      = (calculate_flood_risk fetched_rainfall fetched_elevation req.rainfall_mm
          req.elevation_m).severity
    ∧ (create_flood_event req fetched_rainfall fetched_elevation subscriptions
        smsOk emailOk).risk_score
      = (calculate_flood_risk fetched_rainfall fetched_elevation req.rainfall_mm
          req.elevation_m).risk_score
    ∧ (create_flood_event req fetched_rainfall fetched_elevation subscriptions
        smsOk emailOk).rainfall_mm
      = (calculate_flood_risk fetched_rainfall fetched_elevation req.rainfall_mm
          req.elevation_m).rainfall_mm
    ∧ (create_flood_event req fetched_rainfall fetched_elevation subscriptions
        smsOk emailOk).elevation_m
      = (calculate_flood_risk fetched_rainfall fetched_elevation req.rainfall_mm
          req.elevation_m).elevation_m := by
  simp only [create_flood_event]
  by_cases hs : (calculate_flood_risk fetched_rainfall fetched_elevation
      req.rainfall_mm req.elevation_m).severity = "High"
    ∨ (calculate_flood_risk fetched_rainfall fetched_elevation
      req.rainfall_mm req.elevation_m).severity = "Critical"
  · rw [if_pos hs]
    by_cases he : (get_subscriptions_near_location req.latitude req.longitude
        (calculate_flood_risk fetched_rainfall fetched_elevation
          req.rainfall_mm req.elevation_m).severity subscriptions).isEmpty
      = true
    · rw [if_pos he]
      simp_all
    · rw [if_neg he]
      simp_all
  · rw [if_neg hs]
    simp_all [hs]

end FloodForecaster
